import Mathlib

/-
Verification of the Transformer architecture notebook
(Abstractive-Text-Summarizer, src/transformer_architecture.ipynb).

Tensors are modelled shallowly as dimension tuples together with total
entry functions into the real numbers.  Shape facts are statements about
the dimension fields; value facts are statements about the entry
functions at in-range indices.  Token-id tensors carry natural-number
entries.  All definitions are transliterated from the notebook source.
-/

namespace TransformerModel

/-- Rank-2 real tensor: dimensions plus a total entry function. -/
structure Tensor2 where
  n0 : ℕ
  n1 : ℕ
  ent : ℕ → ℕ → ℝ

/-- Rank-3 real tensor. -/
structure Tensor3 where
  n0 : ℕ
  n1 : ℕ
  n2 : ℕ
  ent : ℕ → ℕ → ℕ → ℝ

/-- Rank-4 real tensor. -/
structure Tensor4 where
  n0 : ℕ
  n1 : ℕ
  n2 : ℕ
  n3 : ℕ
  ent : ℕ → ℕ → ℕ → ℕ → ℝ

/-- Rank-2 integer tensor holding token ids. -/
structure IdTensor2 where
  n0 : ℕ
  n1 : ℕ
  ent : ℕ → ℕ → ℕ

/-- Shape of a rank-2 tensor as a list of dimensions. -/
def Tensor2.shape (t : Tensor2) : List ℕ := [t.n0, t.n1]

/-- Shape of a rank-3 tensor as a list of dimensions. -/
def Tensor3.shape (t : Tensor3) : List ℕ := [t.n0, t.n1, t.n2]

/-- Shape of a rank-4 tensor as a list of dimensions. -/
def Tensor4.shape (t : Tensor4) : List ℕ := [t.n0, t.n1, t.n2, t.n3]

/-- Materialise a rank-2 tensor as nested lists of its in-range entries. -/
def Tensor2.toLists (t : Tensor2) : List (List ℝ) :=
  (List.range t.n0).map (fun i => (List.range t.n1).map (fun j => t.ent i j))

/- ----------------------------------------------------------------
Positional encodings (notebook cells 02e4d6b7 and e1de3542).
---------------------------------------------------------------- -/

/-- Source `get_angles(pos, i, d)`:
`pos / np.power(10000, (2 * (i//2) / d))`.  Integer floor division
`i//2`, then true division by `d`, then a real power of 10000. -/
noncomputable def get_angles (pos i d : ℕ) : ℝ :=
  (pos : ℝ) / (10000 : ℝ) ^ (((2 * (i / 2) : ℕ) : ℝ) / (d : ℝ))

/-- Source `get_positional_encodings(num_words, embed_dim)`: builds the
angle grid, overwrites even columns with their sine and then odd columns
with their cosine (sequential in-place slice assignments on disjoint
column sets), and finally prepends a new leading axis
(`angles_rad[np.newaxis, ...]`), so the returned array is rank 3 with
shape (1, num_words, embed_dim). -/
noncomputable def get_positional_encodings (num_words embed_dim : ℕ) : Tensor3 :=
  let angles_rad : ℕ → ℕ → ℝ := fun p i => get_angles p i embed_dim
  let angles_after_sin : ℕ → ℕ → ℝ := fun p i =>
    if i % 2 = 0 then Real.sin (angles_rad p i) else angles_rad p i
  let angles_after_cos : ℕ → ℕ → ℝ := fun p i =>
    if i % 2 = 1 then Real.cos (angles_after_sin p i) else angles_after_sin p i
  { n0 := 1, n1 := num_words, n2 := embed_dim,
    ent := fun _ p i => angles_after_cos p i }

/- ----------------------------------------------------------------
Mask builders (notebook cells 8dcc5230 and 6e617cfb).
---------------------------------------------------------------- -/

/-- Source `create_padding_mask(seq)`:
`seq = tf.cast(tf.math.equal(seq, 0), tf.float32)` followed by
`seq[:, tf.newaxis, tf.newaxis, :]`, yielding shape
(batch, 1, 1, seq_len). -/
def create_padding_mask (seq : IdTensor2) : Tensor4 :=
  let eqz : ℕ → ℕ → ℝ := fun b j => if seq.ent b j = 0 then 1 else 0
  { n0 := seq.n0, n1 := 1, n2 := 1, n3 := seq.n1,
    ent := fun b _ _ j => eqz b j }

/-- All-ones rank-2 tensor, `tf.ones((m, n))`. -/
def tf_ones (m n : ℕ) : Tensor2 :=
  { n0 := m, n1 := n, ent := fun _ _ => 1 }

/-- Source `tf.linalg.band_part(t, num_lower, num_upper)`: keeps entry
(i, j) when `(num_lower < 0 or i - j <= num_lower) and
(num_upper < 0 or j - i <= num_upper)`, zeroes it otherwise. -/
def band_part (t : Tensor2) (num_lower num_upper : ℤ) : Tensor2 :=
  { n0 := t.n0, n1 := t.n1,
    ent := fun i j =>
      if (num_lower < 0 ∨ (i : ℤ) - (j : ℤ) ≤ num_lower) ∧
         (num_upper < 0 ∨ (j : ℤ) - (i : ℤ) ≤ num_upper)
      then t.ent i j else 0 }

/-- Source `create_look_ahead_mask(size)`:
`1 - tf.linalg.band_part(tf.ones((size, size)), -1, 0)`. -/
def create_look_ahead_mask (size : ℕ) : Tensor2 :=
  let m := band_part (tf_ones size size) (-1) 0
  { n0 := m.n0, n1 := m.n1, ent := fun i j => 1 - m.ent i j }

/- ----------------------------------------------------------------
Claims C3, C4, C5, C6.
---------------------------------------------------------------- -/

/-- C3 counterexample: the positional-encoding generator does not return
a rank-2 array of shape (max_positions, feature_dim); at
max_positions = 2, feature_dim = 2 the result has shape [1, 2, 2]. -/
theorem claim_C3_counterexample :
    (get_positional_encodings 2 2).shape ≠ [2, 2] := by
  simp [get_positional_encodings, Tensor3.shape]

/-- C3 amended: for every positive max_positions and feature_dim the
positional-encoding generator returns a rank-3 array of shape exactly
(1, max_positions, feature_dim): the rank-2 sine/cosine table with one
additional leading axis of extent 1. -/
theorem claim_C3 (m d : ℕ) (hm : 0 < m) (hd : 0 < d) :
    (get_positional_encodings m d).shape = [1, m, d] := rfl

/-- C3 witness at max_positions = 2, feature_dim = 2. -/
theorem claim_C3_witness :
    (get_positional_encodings 2 2).shape = [1, 2, 2] :=
  claim_C3 2 2 (by decide) (by decide)

/-- C4: within the table (leading broadcast axis fixed at 0), the entry
at position p and dimension index i equals
sin(p / 10000 ^ (2 * floor(i / 2) / feature_dim)) for even i and
cos(p / 10000 ^ (2 * floor(i / 2) / feature_dim)) for odd i, and
repeated calls with identical arguments return identical tables. -/
theorem claim_C4 (m d p i : ℕ) (hp : p < m) (hi : i < d) :
    ((i % 2 = 0 →
        (get_positional_encodings m d).ent 0 p i =
          Real.sin ((p : ℝ) / (10000 : ℝ) ^ (((2 * (i / 2) : ℕ) : ℝ) / (d : ℝ)))) ∧
     (i % 2 = 1 →
        (get_positional_encodings m d).ent 0 p i =
          Real.cos ((p : ℝ) / (10000 : ℝ) ^ (((2 * (i / 2) : ℕ) : ℝ) / (d : ℝ))))) ∧
    get_positional_encodings m d = get_positional_encodings m d := by
  refine ⟨⟨fun he => ?_, fun ho => ?_⟩, rfl⟩
  · have ho : ¬ i % 2 = 1 := by omega
    simp [get_positional_encodings, get_angles, he, ho]
  · have he : ¬ i % 2 = 0 := by omega
    simp [get_positional_encodings, get_angles, he, ho]

/-- C4 witness at max_positions = 2, feature_dim = 2, p = 1, i = 0. -/
theorem claim_C4_witness :
    ((0 % 2 = 0 →
        (get_positional_encodings 2 2).ent 0 1 0 =
          Real.sin ((1 : ℝ) / (10000 : ℝ) ^ (((2 * (0 / 2) : ℕ) : ℝ) / (2 : ℝ)))) ∧
     (0 % 2 = 1 →
        (get_positional_encodings 2 2).ent 0 1 0 =
          Real.cos ((1 : ℝ) / (10000 : ℝ) ^ (((2 * (0 / 2) : ℕ) : ℝ) / (2 : ℝ))))) ∧
    get_positional_encodings 2 2 = get_positional_encodings 2 2 := by
  exact_mod_cast claim_C4 2 2 1 0 (by decide) (by decide)

/-- C5: the look-ahead mask has entry 1 exactly at strictly-future key
positions (j > i) and 0 elsewhere, and at size 3 it materialises to
[[0,1,1],[0,0,1],[0,0,0]]. -/
theorem claim_C5 :
    (∀ size i j, i < size → j < size →
        (create_look_ahead_mask size).ent i j = if j > i then 1 else 0) ∧
    (create_look_ahead_mask 3).toLists = [[0, 1, 1], [0, 0, 1], [0, 0, 0]] := by
  constructor
  · intro size i j hi hj
    by_cases hij : j > i
    · have h1 : ¬ ((j : ℤ) - (i : ℤ) ≤ 0) := by omega
      simp [create_look_ahead_mask, band_part, tf_ones, h1, hij]
    · have h1 : (j : ℤ) - (i : ℤ) ≤ 0 := by omega
      have h2 : j ≤ i := by omega
      simp [create_look_ahead_mask, band_part, tf_ones, h1, h2, hij]
  · norm_num [create_look_ahead_mask, band_part, tf_ones, Tensor2.toLists,
      List.range_succ]

/-- C6: the padding mask marks exactly the zero token ids with 1.0 and
all others with 0.0, broadcast-reshaped to (batch, 1, 1, seq_len); the
single sequence [5, 7, 0, 0] yields the mask [0, 0, 1, 1] of shape
(1, 1, 1, 4). -/
theorem claim_C6 :
    (∀ seq : IdTensor2,
        (create_padding_mask seq).shape = [seq.n0, 1, 1, seq.n1] ∧
        (∀ b j, b < seq.n0 → j < seq.n1 →
          (create_padding_mask seq).ent b 0 0 j =
            if seq.ent b j = 0 then 1 else 0)) ∧
    ((create_padding_mask ⟨1, 4, fun _ j => [5, 7, 0, 0].getD j 0⟩).shape
        = [1, 1, 1, 4] ∧
     (create_padding_mask ⟨1, 4, fun _ j => [5, 7, 0, 0].getD j 0⟩).ent 0 0 0 0 = 0 ∧
     (create_padding_mask ⟨1, 4, fun _ j => [5, 7, 0, 0].getD j 0⟩).ent 0 0 0 1 = 0 ∧
     (create_padding_mask ⟨1, 4, fun _ j => [5, 7, 0, 0].getD j 0⟩).ent 0 0 0 2 = 1 ∧
     (create_padding_mask ⟨1, 4, fun _ j => [5, 7, 0, 0].getD j 0⟩).ent 0 0 0 3 = 1) := by
  refine ⟨fun seq => ⟨rfl, fun b j hb hj => rfl⟩, rfl, ?_, ?_, ?_, ?_⟩ <;>
    norm_num [create_padding_mask, List.getD]

/-- C6 witness: the general part of C6 applied to the concrete sequence
[5, 7, 0, 0] at batch row 0, position 2. -/
theorem claim_C6_witness :
    (create_padding_mask ⟨1, 4, fun _ j => [5, 7, 0, 0].getD j 0⟩).ent 0 0 0 2 =
      if (IdTensor2.mk 1 4 (fun _ j => [5, 7, 0, 0].getD j 0)).ent 0 2 = 0
      then 1 else 0 :=
  (claim_C6.1 ⟨1, 4, fun _ j => [5, 7, 0, 0].getD j 0⟩).2 0 2 (by decide) (by decide)

/- ----------------------------------------------------------------
Tensor operations used by the attention core.
---------------------------------------------------------------- -/

/-- Batched matrix product on rank-4 tensors (tf.matmul): contracts the
last axis of the first operand with the penultimate axis of the second,
batching over the two leading axes. -/
noncomputable def matmul4 (a b : Tensor4) : Tensor4 :=
  { n0 := a.n0, n1 := a.n1, n2 := a.n2, n3 := b.n3,
    ent := fun i h r c => ∑ l ∈ Finset.range a.n3, a.ent i h r l * b.ent i h l c }

/-- Swap of the last two axes (the effect of transpose_b in tf.matmul). -/
def transpose4_23 (x : Tensor4) : Tensor4 :=
  { n0 := x.n0, n1 := x.n1, n2 := x.n3, n3 := x.n2,
    ent := fun a b c d => x.ent a b d c }

/-- tf.transpose with perm = [0, 2, 1, 3]. -/
def transpose4_0213 (x : Tensor4) : Tensor4 :=
  { n0 := x.n0, n1 := x.n2, n2 := x.n1, n3 := x.n3,
    ent := fun a b c d => x.ent a c b d }

/-- Entrywise division of a tensor by a scalar. -/
noncomputable def divScalar4 (t : Tensor4) (c : ℝ) : Tensor4 :=
  { n0 := t.n0, n1 := t.n1, n2 := t.n2, n3 := t.n3,
    ent := fun a b r s => t.ent a b r s / c }

/-- Entrywise multiplication of a tensor by a scalar on the right. -/
def scaleTensor4 (t : Tensor4) (c : ℝ) : Tensor4 :=
  { n0 := t.n0, n1 := t.n1, n2 := t.n2, n3 := t.n3,
    ent := fun a b r s => t.ent a b r s * c }

/-- Broadcasting addition of a rank-4 tensor: axes of extent 1 in the
second operand broadcast over the corresponding axes of the first. -/
def bcastAdd4 (x m : Tensor4) : Tensor4 :=
  { n0 := x.n0, n1 := x.n1, n2 := x.n2, n3 := x.n3,
    ent := fun a b c d =>
      x.ent a b c d +
        m.ent (if m.n0 = 1 then 0 else a) (if m.n1 = 1 then 0 else b)
              (if m.n2 = 1 then 0 else c) (if m.n3 = 1 then 0 else d) }

/-- tf.nn.softmax along the last axis of a rank-4 tensor. -/
noncomputable def softmax4 (t : Tensor4) : Tensor4 :=
  { n0 := t.n0, n1 := t.n1, n2 := t.n2, n3 := t.n3,
    ent := fun a b r s =>
      Real.exp (t.ent a b r s) / ∑ l ∈ Finset.range t.n3, Real.exp (t.ent a b r l) }

/- ----------------------------------------------------------------
Scaled dot-product attention (notebook cell a5870c0a).
---------------------------------------------------------------- -/

/-- Source scaled_dot_product_attention(q, k, v, mask):
score_matrix = tf.matmul(q, k, transpose_b=True); dk = last dimension
of k; scaled scores = score_matrix / sqrt(dk); if a mask is given,
mask * (-1e9) is added; attention weights = softmax over the last
(key-length) axis; output = weights matmul v. -/
noncomputable def scaled_dot_product_attention (q k v : Tensor4) (mask : Option Tensor4) :
    Tensor4 × Tensor4 :=
  let score_matrix := matmul4 q (transpose4_23 k)
  let dk : ℝ := (k.n3 : ℕ)
  let scaled_attention_scores := divScalar4 score_matrix (Real.sqrt dk)
  let masked :=
    match mask with
    | none => scaled_attention_scores
    | some m => bcastAdd4 scaled_attention_scores (scaleTensor4 m (-1000000000))
  let attention_weights := softmax4 masked
  let output := matmul4 attention_weights v
  (output, attention_weights)

/-- Attention as the C1 spec sentence words it: raw scores contract
query and key over the shared depth axis, are scaled by the square root
of that shared depth (read from the query), mask times -1e9 is added
when a mask is supplied, weights are the softmax over the key-length
axis, and the output is weights times value. -/
noncomputable def attend_spec (q k v : Tensor4) (mask : Option Tensor4) :
    Tensor4 × Tensor4 :=
  let depth : ℝ := (q.n3 : ℕ)
  let raw_scores := matmul4 q (transpose4_23 k)
  let scaled_scores := divScalar4 raw_scores (Real.sqrt depth)
  let biased :=
    match mask with
    | none => scaled_scores
    | some m => bcastAdd4 scaled_scores (scaleTensor4 m (-1000000000))
  let weights := softmax4 biased
  (matmul4 weights v, weights)

/-- C1: when the query and key share their last (depth) dimension and
the key and value share their key-length dimension, the source
attention function returns exactly the softmax weights and weighted
output described by the spec formula, both with and without a mask. -/
theorem claim_C1 (q k v : Tensor4) (mask : Option Tensor4)
    (hdepth : q.n3 = k.n3) (hkv : k.n2 = v.n2) :
    scaled_dot_product_attention q k v mask = attend_spec q k v mask := by
  simp only [scaled_dot_product_attention, attend_spec, hdepth]

/-- C1 witness at concrete singleton tensors with no mask. -/
theorem claim_C1_witness :
    scaled_dot_product_attention ⟨1, 1, 1, 1, fun _ _ _ _ => 0⟩
        ⟨1, 1, 1, 1, fun _ _ _ _ => 0⟩ ⟨1, 1, 1, 1, fun _ _ _ _ => 0⟩ none =
      attend_spec ⟨1, 1, 1, 1, fun _ _ _ _ => 0⟩ ⟨1, 1, 1, 1, fun _ _ _ _ => 0⟩
        ⟨1, 1, 1, 1, fun _ _ _ _ => 0⟩ none :=
  claim_C1 _ _ _ none rfl rfl

/- ----------------------------------------------------------------
Dense layers and multi-head attention (notebook cell 047d3839).
---------------------------------------------------------------- -/

/-- Weight supply for one Keras Dense layer: kernel and bias values. -/
structure DenseW where
  w : ℕ → ℕ → ℝ
  b : ℕ → ℝ

/-- A constructed Dense layer: configured output width plus weights. -/
structure DenseLayer where
  units : ℕ
  w : ℕ → ℕ → ℝ
  b : ℕ → ℝ

/-- Dense applied to the last axis of a rank-3 tensor:
affine map x W + b per (batch, position). -/
noncomputable def DenseLayer.apply3 (L : DenseLayer) (x : Tensor3) : Tensor3 :=
  { n0 := x.n0, n1 := x.n1, n2 := L.units,
    ent := fun bi li o =>
      (∑ i ∈ Finset.range x.n2, x.ent bi li i * L.w i o) + L.b o }

/-- Multi-head attention layer state after construction. -/
structure MultiHeadAttention where
  num_heads : ℕ
  d_model : ℕ
  depth : ℕ
  wq : DenseLayer
  wk : DenseLayer
  wv : DenseLayer
  dense : DenseLayer

/-- The record the MultiHeadAttention constructor builds when its
checks pass: depth = d_model // num_heads and four Dense layers of
width d_model. -/
def MultiHeadAttention.build (d_model num_heads : ℕ) (Wq Wk Wv Wo : DenseW) :
    MultiHeadAttention :=
  { num_heads := num_heads, d_model := d_model, depth := d_model / num_heads,
    wq := ⟨d_model, Wq.w, Wq.b⟩, wk := ⟨d_model, Wk.w, Wk.b⟩,
    wv := ⟨d_model, Wv.w, Wv.b⟩, dense := ⟨d_model, Wo.w, Wo.b⟩ }

/-- Source MultiHeadAttention.__init__(d_model, num_heads): evaluating
d_model % num_heads raises ZeroDivisionError when num_heads = 0; the
assert d_model % num_heads == 0 raises AssertionError when the
remainder is nonzero; otherwise the layer is built. -/
def MultiHeadAttention.init (d_model num_heads : ℕ) (Wq Wk Wv Wo : DenseW) :
    Except String MultiHeadAttention :=
  if num_heads = 0 then .error "ZeroDivisionError"
  else if d_model % num_heads = 0 then
    .ok (MultiHeadAttention.build d_model num_heads Wq Wk Wv Wo)
  else .error "AssertionError"

/-- Row-major tf.reshape of a rank-3 tensor to rank 4, with the second
target dimension inferred as in tf.reshape(x, (d0, -1, d2, d3)). -/
def reshape3to4 (x : Tensor3) (d0 d2 d3 : ℕ) : Tensor4 :=
  let total := x.n0 * x.n1 * x.n2
  let d1 := total / (d0 * d2 * d3)
  { n0 := d0, n1 := d1, n2 := d2, n3 := d3,
    ent := fun a i j k =>
      let f := ((a * d1 + i) * d2 + j) * d3 + k
      x.ent (f / (x.n1 * x.n2)) (f / x.n2 % x.n1) (f % x.n2) }

/-- Row-major tf.reshape of a rank-4 tensor to rank 3, with the second
target dimension inferred as in tf.reshape(x, (d0, -1, d2)). -/
def reshape4to3 (x : Tensor4) (d0 d2 : ℕ) : Tensor3 :=
  let total := x.n0 * x.n1 * x.n2 * x.n3
  let d1 := total / (d0 * d2)
  { n0 := d0, n1 := d1, n2 := d2,
    ent := fun a i j =>
      let f := (a * d1 + i) * d2 + j
      x.ent (f / (x.n1 * x.n2 * x.n3)) (f / (x.n2 * x.n3) % x.n1)
        (f / x.n3 % x.n2) (f % x.n3) }

/-- Source MultiHeadAttention.split_heads(x, batch_size):
tf.reshape(x, (batch_size, -1, num_heads, depth)) followed by
tf.transpose(x, perm=[0, 2, 1, 3]). -/
def MultiHeadAttention.split_heads (p : MultiHeadAttention) (x : Tensor3)
    (batch_size : ℕ) : Tensor4 :=
  transpose4_0213 (reshape3to4 x batch_size p.num_heads p.depth)

/-- The multi-head pipeline downstream of the three input projections:
split each projected tensor into heads, run scaled dot-product
attention, transpose and merge the heads back, and apply the output
projection.  Returns the projected output and the raw weights. -/
noncomputable def mhaAfterProj (p : MultiHeadAttention) (qp kp vp : Tensor3)
    (batch_size : ℕ) (mask : Option Tensor4) : Tensor3 × Tensor4 :=
  let q2 := p.split_heads qp batch_size
  let k2 := p.split_heads kp batch_size
  let v2 := p.split_heads vp batch_size
  let r := scaled_dot_product_attention q2 k2 v2 mask
  let scaled_attention := transpose4_0213 r.1
  let concat_attention := reshape4to3 scaled_attention batch_size p.d_model
  (p.dense.apply3 concat_attention, r.2)

/-- Source MultiHeadAttention.call(self, v, k, q, mask): the first
positional argument is bound to parameter v, the second to k, the
third to q; batch size is read from q; wq projects q, wk projects k,
wv projects v; then heads are split and attention is run. -/
noncomputable def MultiHeadAttention.call (p : MultiHeadAttention)
    (v k q : Tensor3) (mask : Option Tensor4) : Tensor3 × Tensor4 :=
  let batch_size := q.n0
  let q1 := p.wq.apply3 q
  let k1 := p.wk.apply3 k
  let v1 := p.wv.apply3 v
  let q2 := p.split_heads q1 batch_size
  let k2 := p.split_heads k1 batch_size
  let v2 := p.split_heads v1 batch_size
  let r := scaled_dot_product_attention q2 k2 v2 mask
  let scaled_attention := transpose4_0213 r.1
  let concat_attention := reshape4to3 scaled_attention batch_size p.d_model
  (p.dense.apply3 concat_attention, r.2)

/-- The multi-head call as claim C2 words it: the first positional
argument is treated as the query (projected by wq), the second as the
key (projected by wk), the third as the value (projected by wv), with
the batch size read from the first argument. -/
noncomputable def MultiHeadAttention.callSpecOrder (p : MultiHeadAttention)
    (a b c : Tensor3) (mask : Option Tensor4) : Tensor3 × Tensor4 :=
  mhaAfterProj p (p.wq.apply3 a) (p.wk.apply3 b) (p.wv.apply3 c) a.n0 mask

/-- All-zero Dense weight supply. -/
def zeroW : DenseW := ⟨fun _ _ => 0, fun _ => 0⟩

/-- All-one Dense weight supply (kernel one, bias zero). -/
def oneW : DenseW := ⟨fun _ _ => 1, fun _ => 0⟩

/-- Concrete one-head width-one multi-head layer whose query and key
projections are zero and whose value and output projections are the
identity on width one. -/
def mhaC2 : MultiHeadAttention :=
  { num_heads := 1, d_model := 1, depth := 1,
    wq := ⟨1, zeroW.w, zeroW.b⟩, wk := ⟨1, zeroW.w, zeroW.b⟩,
    wv := ⟨1, oneW.w, oneW.b⟩, dense := ⟨1, oneW.w, oneW.b⟩ }

/-- Concrete 1 x 1 x 1 tensor with entry one. -/
def tOne : Tensor3 := ⟨1, 1, 1, fun _ _ _ => 1⟩

/-- Concrete 1 x 1 x 1 tensor with entry zero. -/
def tZero : Tensor3 := ⟨1, 1, 1, fun _ _ _ => 0⟩

lemma mhaC2_call_eval :
    (mhaC2.call tOne tOne tZero none).1.ent 0 0 0 = 1 := by
  norm_num [MultiHeadAttention.call, MultiHeadAttention.split_heads, mhaC2, tOne,
    tZero, zeroW, oneW, DenseLayer.apply3, reshape3to4, reshape4to3,
    transpose4_0213, transpose4_23, scaled_dot_product_attention, matmul4,
    divScalar4, softmax4, Finset.sum_range_one, Real.exp_ne_zero]

lemma mhaC2_callSpecOrder_eval :
    (mhaC2.callSpecOrder tOne tOne tZero none).1.ent 0 0 0 = 0 := by
  norm_num [MultiHeadAttention.callSpecOrder, mhaAfterProj,
    MultiHeadAttention.split_heads, mhaC2, tOne, tZero, zeroW, oneW,
    DenseLayer.apply3, reshape3to4, reshape4to3, transpose4_0213, transpose4_23,
    scaled_dot_product_attention, matmul4, divScalar4, softmax4,
    Finset.sum_range_one, Real.exp_ne_zero]

/-- C2 counterexample: the multi-head call does not apply the query
projection to its first positional argument.  With zero query/key
projections, identity value/output projections, first and second
arguments one and third argument zero, the source call returns entry 1
(it takes its value from the first argument) while the claimed
query-first reading returns entry 0. -/
theorem claim_C2_counterexample :
    mhaC2.call tOne tOne tZero none ≠ mhaC2.callSpecOrder tOne tOne tZero none := by
  intro h
  have h1 : (1 : ℝ) = 0 := by
    rw [← mhaC2_call_eval, h, mhaC2_callSpecOrder_eval]
  exact one_ne_zero h1

/-- C2 amended: in the contract positional order the multi-head call
binds its FIRST argument to the value projection (wv), its SECOND to
the key projection (wk), and its THIRD to the query projection (wq),
reading the batch size from the third argument; the projected tensors
then flow into head splitting and scaled dot-product attention. -/
theorem claim_C2 (p : MultiHeadAttention) (a b c : Tensor3) (mask : Option Tensor4) :
    p.call a b c mask =
      mhaAfterProj p (p.wq.apply3 c) (p.wk.apply3 b) (p.wv.apply3 a) c.n0 mask := rfl

/-- C7 counterexample: feature_dim = 0 is divisible by head_count = 0
(every natural number divides 0), yet construction fails with a
division-by-zero error rather than succeeding. -/
theorem claim_C7_counterexample :
    (0 : ℕ) ∣ 0 ∧
      MultiHeadAttention.init 0 0 zeroW zeroW zeroW zeroW =
        .error "ZeroDivisionError" :=
  ⟨dvd_refl 0, rfl⟩

/-- C7 amended: construction of the multi-head attention component
succeeds exactly when head_count is nonzero and divides feature_dim
(head_count = 0 always fails, via the division-by-zero in the modulus
check); on success the per-head depth is feature_dim / head_count. -/
theorem claim_C7 (d_model num_heads : ℕ) (Wq Wk Wv Wo : DenseW) :
    ((MultiHeadAttention.init d_model num_heads Wq Wk Wv Wo).isOk = true ↔
      (num_heads ≠ 0 ∧ num_heads ∣ d_model)) ∧
    (∀ p, MultiHeadAttention.init d_model num_heads Wq Wk Wv Wo = .ok p →
      p.depth = d_model / num_heads) := by
  constructor
  · by_cases h0 : num_heads = 0
    · simp [MultiHeadAttention.init, h0, Except.isOk, Except.toBool]
    · by_cases hm : d_model % num_heads = 0
      · simp [MultiHeadAttention.init, h0, hm, Except.isOk, Except.toBool,
          Nat.dvd_iff_mod_eq_zero]
      · simp [MultiHeadAttention.init, h0, hm, Except.isOk, Except.toBool,
          Nat.dvd_iff_mod_eq_zero]
  · intro p hp
    by_cases h0 : num_heads = 0
    · simp [MultiHeadAttention.init, h0] at hp
    · by_cases hm : d_model % num_heads = 0
      · simp [MultiHeadAttention.init, h0, hm] at hp
        rw [← hp]
        rfl
      · simp [MultiHeadAttention.init, h0, hm] at hp

/-- C7 witness at feature_dim = 4, head_count = 2. -/
theorem claim_C7_witness :
    (MultiHeadAttention.init 4 2 zeroW zeroW zeroW zeroW).isOk = true ∧
    (MultiHeadAttention.build 4 2 zeroW zeroW zeroW zeroW).depth = 4 / 2 :=
  ⟨(claim_C7 4 2 zeroW zeroW zeroW zeroW).1.mpr ⟨by decide, by decide⟩,
   (claim_C7 4 2 zeroW zeroW zeroW zeroW).2 _ rfl⟩

/- ----------------------------------------------------------------
Rank-3 tensor operations used by the layer stacks.
---------------------------------------------------------------- -/

/-- Pointwise sum of two rank-3 tensors; dimensions are taken from the
first operand (the operands match in every use in the source). -/
def add3 (x y : Tensor3) : Tensor3 :=
  { n0 := x.n0, n1 := x.n1, n2 := x.n2,
    ent := fun b l i => x.ent b l i + y.ent b l i }

/-- Entrywise multiplication of a rank-3 tensor by a scalar. -/
def scale3 (x : Tensor3) (c : ℝ) : Tensor3 :=
  { n0 := x.n0, n1 := x.n1, n2 := x.n2,
    ent := fun b l i => x.ent b l i * c }

/-- Slice `t[:, :len, :]` of a rank-3 tensor. -/
def slice3 (t : Tensor3) (len : ℕ) : Tensor3 :=
  { n0 := t.n0, n1 := min len t.n1, n2 := t.n2, ent := t.ent }

/-- Broadcasting addition of a rank-3 tensor: axes of extent 1 in the
second operand broadcast over the corresponding axes of the first. -/
def bcastAdd3 (x m : Tensor3) : Tensor3 :=
  { n0 := x.n0, n1 := x.n1, n2 := x.n2,
    ent := fun b l i =>
      x.ent b l i +
        m.ent (if m.n0 = 1 then 0 else b) (if m.n1 = 1 then 0 else l)
              (if m.n2 = 1 then 0 else i) }

/-- Entrywise rectified linear unit on a rank-3 tensor. -/
def relu3 (x : Tensor3) : Tensor3 :=
  { n0 := x.n0, n1 := x.n1, n2 := x.n2,
    ent := fun b l i => max (x.ent b l i) 0 }

/-- tf.nn.softmax along the last axis of a rank-3 tensor. -/
noncomputable def softmax3 (t : Tensor3) : Tensor3 :=
  { n0 := t.n0, n1 := t.n1, n2 := t.n2,
    ent := fun b l i =>
      Real.exp (t.ent b l i) / ∑ j ∈ Finset.range t.n2, Real.exp (t.ent b l j) }

/- ----------------------------------------------------------------
Keras building blocks consumed as black boxes by the notebook:
Embedding, LayerNormalization, Dropout, and the FullyConnected
feed-forward network (cell 8a6042fb).
---------------------------------------------------------------- -/

/-- Keras Embedding(input_dim, output_dim) with its learned table. -/
structure EmbeddingLayer where
  input_dim : ℕ
  output_dim : ℕ
  table : ℕ → ℕ → ℝ

/-- Embedding lookup over a rank-2 batch of token ids. -/
def EmbeddingLayer.apply (e : EmbeddingLayer) (ids : IdTensor2) : Tensor3 :=
  { n0 := ids.n0, n1 := ids.n1, n2 := e.output_dim,
    ent := fun b l j => e.table (ids.ent b l) j }

/-- Keras LayerNormalization(epsilon): learned scale and offset. -/
structure LayerNorm where
  eps : ℝ
  gamma : ℕ → ℝ
  beta : ℕ → ℝ

/-- Layer normalization over the last axis of a rank-3 tensor. -/
noncomputable def LayerNorm.apply (L : LayerNorm) (x : Tensor3) : Tensor3 :=
  { n0 := x.n0, n1 := x.n1, n2 := x.n2,
    ent := fun b l i =>
      let mu := (∑ j ∈ Finset.range x.n2, x.ent b l j) / (x.n2 : ℝ)
      let var := (∑ j ∈ Finset.range x.n2, (x.ent b l j - mu) ^ 2) / (x.n2 : ℝ)
      L.gamma i * ((x.ent b l i - mu) / Real.sqrt (var + L.eps)) + L.beta i }

/-- Keras Dropout(rate).  In a training pass each entry is multiplied
by an externally drawn noise factor (0 for dropped units, 1/(1-rate)
for kept units); in an inference pass the input passes unchanged. -/
structure Dropout where
  rate : ℝ
  noise : ℕ → ℕ → ℕ → ℝ

/-- Dropout applied to a rank-3 tensor under a training flag. -/
def Dropout.apply (d : Dropout) (training : Bool) (x : Tensor3) : Tensor3 :=
  { n0 := x.n0, n1 := x.n1, n2 := x.n2,
    ent := fun b l i =>
      if training then x.ent b l i * d.noise b l i else x.ent b l i }

/-- Source FullyConnected(embedding_dim, fully_connected_dim):
Dense(fully_connected_dim, relu) followed by Dense(embedding_dim). -/
structure FullyConnected where
  inner : DenseLayer
  outer : DenseLayer

/-- Build the feed-forward block from its two weight supplies. -/
def FullyConnected.build (embedding_dim fully_connected_dim : ℕ)
    (Wi Wo : DenseW) : FullyConnected :=
  { inner := ⟨fully_connected_dim, Wi.w, Wi.b⟩,
    outer := ⟨embedding_dim, Wo.w, Wo.b⟩ }

/-- Apply the feed-forward block position-wise. -/
noncomputable def FullyConnected.apply (f : FullyConnected) (x : Tensor3) : Tensor3 :=
  f.outer.apply3 (relu3 (f.inner.apply3 x))

/- ----------------------------------------------------------------
Weight supplies for whole layers (learned externally; the notebook
only fixes the configured widths).
---------------------------------------------------------------- -/

/-- Weight supply for one LayerNormalization instance. -/
structure LNW where
  g : ℕ → ℝ
  b : ℕ → ℝ

/-- Weight supply for one MultiHeadAttention instance. -/
structure MHAWeights where
  Wq : DenseW
  Wk : DenseW
  Wv : DenseW
  Wo : DenseW

/-- Weight/noise supply for one EncoderLayer. -/
structure EncoderLayerParams where
  att : MHAWeights
  ffnInner : DenseW
  ffnOuter : DenseW
  lnw1 : LNW
  lnw2 : LNW
  noise1 : ℕ → ℕ → ℕ → ℝ
  noise2 : ℕ → ℕ → ℕ → ℝ

/-- Weight/noise supply for one DecoderLayer. -/
structure DecoderLayerParams where
  att1 : MHAWeights
  att2 : MHAWeights
  ffnInner : DenseW
  ffnOuter : DenseW
  lnw1 : LNW
  lnw2 : LNW
  lnw3 : LNW
  noise1 : ℕ → ℕ → ℕ → ℝ
  noise2 : ℕ → ℕ → ℕ → ℝ
  noise3 : ℕ → ℕ → ℕ → ℝ

/- ----------------------------------------------------------------
Encoder layer (notebook cell ce8d2ea5).
---------------------------------------------------------------- -/

/-- Encoder layer state after construction. -/
structure EncoderLayer where
  mha : MultiHeadAttention
  ffn : FullyConnected
  layernorm1 : LayerNorm
  layernorm2 : LayerNorm
  dropout1 : Dropout
  dropout2 : Dropout

/-- The record the EncoderLayer constructor builds when the nested
MultiHeadAttention construction succeeds. -/
def EncoderLayer.build (embedding_dim num_heads fully_connected_dim : ℕ)
    (dropout_rate layernorm_eps : ℝ) (p : EncoderLayerParams) : EncoderLayer :=
  { mha := MultiHeadAttention.build embedding_dim num_heads
      p.att.Wq p.att.Wk p.att.Wv p.att.Wo,
    ffn := FullyConnected.build embedding_dim fully_connected_dim
      p.ffnInner p.ffnOuter,
    layernorm1 := ⟨layernorm_eps, p.lnw1.g, p.lnw1.b⟩,
    layernorm2 := ⟨layernorm_eps, p.lnw2.g, p.lnw2.b⟩,
    dropout1 := ⟨dropout_rate, p.noise1⟩,
    dropout2 := ⟨dropout_rate, p.noise2⟩ }

/-- Source EncoderLayer.__init__: constructs the MultiHeadAttention
(which may raise) and the remaining sub-layers. -/
def EncoderLayer.init (embedding_dim num_heads fully_connected_dim : ℕ)
    (dropout_rate layernorm_eps : ℝ) (p : EncoderLayerParams) :
    Except String EncoderLayer :=
  match MultiHeadAttention.init embedding_dim num_heads
      p.att.Wq p.att.Wk p.att.Wv p.att.Wo with
  | .error e => .error e
  | .ok _ => .ok (EncoderLayer.build embedding_dim num_heads fully_connected_dim
      dropout_rate layernorm_eps p)

/-- Source EncoderLayer.call(x, training, mask): self-attention on
(x, x, x), dropout, residual layernorm, feed-forward, dropout,
residual layernorm. -/
noncomputable def EncoderLayer.call (l : EncoderLayer) (x : Tensor3)
    (training : Bool) (mask : Option Tensor4) : Tensor3 :=
  let r := l.mha.call x x x mask
  let self_attn_output := l.dropout1.apply training r.1
  let mult_attn_out := l.layernorm1.apply (add3 x self_attn_output)
  let ffn_output := l.ffn.apply mult_attn_out
  let ffn_output2 := l.dropout2.apply training ffn_output
  l.layernorm2.apply (add3 ffn_output2 mult_attn_out)

/- ----------------------------------------------------------------
Decoder layer (notebook cell f3371f64).
---------------------------------------------------------------- -/

/-- Decoder layer state after construction. -/
structure DecoderLayer where
  mha1 : MultiHeadAttention
  mha2 : MultiHeadAttention
  ffn : FullyConnected
  layernorm1 : LayerNorm
  layernorm2 : LayerNorm
  layernorm3 : LayerNorm
  dropout1 : Dropout
  dropout2 : Dropout
  dropout3 : Dropout

/-- The record the DecoderLayer constructor builds when both nested
MultiHeadAttention constructions succeed. -/
def DecoderLayer.build (embedding_dim num_heads fully_connected_dim : ℕ)
    (dropout_rate layernorm_eps : ℝ) (p : DecoderLayerParams) : DecoderLayer :=
  { mha1 := MultiHeadAttention.build embedding_dim num_heads
      p.att1.Wq p.att1.Wk p.att1.Wv p.att1.Wo,
    mha2 := MultiHeadAttention.build embedding_dim num_heads
      p.att2.Wq p.att2.Wk p.att2.Wv p.att2.Wo,
    ffn := FullyConnected.build embedding_dim fully_connected_dim
      p.ffnInner p.ffnOuter,
    layernorm1 := ⟨layernorm_eps, p.lnw1.g, p.lnw1.b⟩,
    layernorm2 := ⟨layernorm_eps, p.lnw2.g, p.lnw2.b⟩,
    layernorm3 := ⟨layernorm_eps, p.lnw3.g, p.lnw3.b⟩,
    dropout1 := ⟨dropout_rate, p.noise1⟩,
    dropout2 := ⟨dropout_rate, p.noise2⟩,
    dropout3 := ⟨dropout_rate, p.noise3⟩ }

/-- Source DecoderLayer.__init__. -/
def DecoderLayer.init (embedding_dim num_heads fully_connected_dim : ℕ)
    (dropout_rate layernorm_eps : ℝ) (p : DecoderLayerParams) :
    Except String DecoderLayer :=
  match MultiHeadAttention.init embedding_dim num_heads
      p.att1.Wq p.att1.Wk p.att1.Wv p.att1.Wo with
  | .error e => .error e
  | .ok _ =>
    match MultiHeadAttention.init embedding_dim num_heads
        p.att2.Wq p.att2.Wk p.att2.Wv p.att2.Wo with
    | .error e => .error e
    | .ok _ => .ok (DecoderLayer.build embedding_dim num_heads fully_connected_dim
        dropout_rate layernorm_eps p)

/-- Source DecoderLayer.call(x, enc_output, training, look_ahead_mask,
padding_mask): masked self-attention on (x, x, x), residual layernorm;
cross-attention called as mha2(enc_output, enc_output, out1,
padding_mask) so the query is out1 and key/value are the encoder
output; residual layernorm; feed-forward; residual layernorm.  Returns
the block output and the two attention-weight tensors. -/
noncomputable def DecoderLayer.call (l : DecoderLayer) (x enc_output : Tensor3)
    (training : Bool) (look_ahead_mask padding_mask : Option Tensor4) :
    Tensor3 × Tensor4 × Tensor4 :=
  let r1 := l.mha1.call x x x look_ahead_mask
  let attn1 := l.dropout1.apply training r1.1
  let out1 := l.layernorm1.apply (add3 attn1 x)
  let r2 := l.mha2.call enc_output enc_output out1 padding_mask
  let attn2 := l.dropout2.apply training r2.1
  let out2 := l.layernorm2.apply (add3 attn2 out1)
  let ffn_output := l.ffn.apply out2
  let ffn_output2 := l.dropout3.apply training ffn_output
  let out3 := l.layernorm3.apply (add3 ffn_output2 out2)
  (out3, r1.2, r2.2)

/- ----------------------------------------------------------------
Encoder and Decoder stacks (notebook cells 08f98ccf and 35cde59c).
---------------------------------------------------------------- -/

/-- Build the list [f 0, ..., f (n-1)] in a failure-propagating way,
mirroring a Python list comprehension whose element constructor may
raise. -/
def initLayers {α : Type} (f : ℕ → Except String α) : ℕ → Except String (List α)
  | 0 => .ok []
  | n + 1 =>
    match initLayers f n with
    | .error e => .error e
    | .ok xs =>
      match f n with
      | .error e => .error e
      | .ok x => .ok (xs ++ [x])

/-- Default DenseLayer (used only as a getD fallback). -/
def defaultDenseLayer : DenseLayer := ⟨0, fun _ _ => 0, fun _ => 0⟩

/-- Default MultiHeadAttention (used only as a getD fallback). -/
def defaultMHA : MultiHeadAttention :=
  ⟨0, 0, 0, defaultDenseLayer, defaultDenseLayer, defaultDenseLayer,
    defaultDenseLayer⟩

/-- Default EncoderLayer (used only as a getD fallback). -/
def defaultEncoderLayer : EncoderLayer :=
  ⟨defaultMHA, ⟨defaultDenseLayer, defaultDenseLayer⟩,
    ⟨0, fun _ => 0, fun _ => 0⟩, ⟨0, fun _ => 0, fun _ => 0⟩,
    ⟨0, fun _ _ _ => 0⟩, ⟨0, fun _ _ _ => 0⟩⟩

/-- Default DecoderLayer (used only as a getD fallback). -/
def defaultDecoderLayer : DecoderLayer :=
  ⟨defaultMHA, defaultMHA, ⟨defaultDenseLayer, defaultDenseLayer⟩,
    ⟨0, fun _ => 0, fun _ => 0⟩, ⟨0, fun _ => 0, fun _ => 0⟩,
    ⟨0, fun _ => 0, fun _ => 0⟩,
    ⟨0, fun _ _ _ => 0⟩, ⟨0, fun _ _ _ => 0⟩, ⟨0, fun _ _ _ => 0⟩⟩

/-- Encoder state after construction. -/
structure Encoder where
  embedding_dim : ℕ
  num_layers : ℕ
  embedding : EmbeddingLayer
  pos_encoding : Tensor3
  enc_layers : List EncoderLayer
  dropout : Dropout

/-- The record the Encoder constructor builds on success. -/
noncomputable def Encoder.build (num_layers embedding_dim num_heads
    fully_connected_dim input_vocab_size maximum_position_encoding : ℕ)
    (dropout_rate layernorm_eps : ℝ) (embW : ℕ → ℕ → ℝ)
    (ps : ℕ → EncoderLayerParams) (dropNoise : ℕ → ℕ → ℕ → ℝ) : Encoder :=
  { embedding_dim := embedding_dim, num_layers := num_layers,
    embedding := ⟨input_vocab_size, embedding_dim, embW⟩,
    pos_encoding := get_positional_encodings maximum_position_encoding embedding_dim,
    enc_layers := (List.range num_layers).map (fun i =>
      EncoderLayer.build embedding_dim num_heads fully_connected_dim
        dropout_rate layernorm_eps (ps i)),
    dropout := ⟨dropout_rate, dropNoise⟩ }

/-- Source Encoder.__init__: embedding, positional-encoding table, a
list of num_layers EncoderLayer instances (each construction may
raise), and a dropout layer. -/
noncomputable def Encoder.init (num_layers embedding_dim num_heads
    fully_connected_dim input_vocab_size maximum_position_encoding : ℕ)
    (dropout_rate layernorm_eps : ℝ) (embW : ℕ → ℕ → ℝ)
    (ps : ℕ → EncoderLayerParams) (dropNoise : ℕ → ℕ → ℕ → ℝ) :
    Except String Encoder :=
  match initLayers (fun i =>
      EncoderLayer.init embedding_dim num_heads fully_connected_dim
        dropout_rate layernorm_eps (ps i)) num_layers with
  | .error e => .error e
  | .ok layers =>
    .ok { embedding_dim := embedding_dim, num_layers := num_layers,
          embedding := ⟨input_vocab_size, embedding_dim, embW⟩,
          pos_encoding := get_positional_encodings maximum_position_encoding
            embedding_dim,
          enc_layers := layers,
          dropout := ⟨dropout_rate, dropNoise⟩ }

/-- Source Encoder.call(x, training, mask): embedding lookup, scaling
by sqrt(embedding_dim), adding the sliced positional-encoding table,
dropout, then the sequential layer stack indexed by
range(num_layers). -/
noncomputable def Encoder.call (e : Encoder) (x : IdTensor2) (training : Bool)
    (mask : Option Tensor4) : Tensor3 :=
  let seq_len := x.n1
  let x1 := e.embedding.apply x
  let x2 := scale3 x1 (Real.sqrt (e.embedding_dim : ℕ))
  let x3 := bcastAdd3 x2 (slice3 e.pos_encoding seq_len)
  let x4 := e.dropout.apply training x3
  (List.range e.num_layers).foldl
    (fun acc i => (e.enc_layers.getD i defaultEncoderLayer).call acc training mask)
    x4

/-- Decoder state after construction. -/
structure Decoder where
  embedding_dim : ℕ
  num_layers : ℕ
  embedding : EmbeddingLayer
  pos_encoding : Tensor3
  dec_layers : List DecoderLayer
  dropout : Dropout

/-- The record the Decoder constructor builds on success. -/
noncomputable def Decoder.build (num_layers embedding_dim num_heads
    fully_connected_dim target_vocab_size maximum_position_encoding : ℕ)
    (dropout_rate layernorm_eps : ℝ) (embW : ℕ → ℕ → ℝ)
    (ps : ℕ → DecoderLayerParams) (dropNoise : ℕ → ℕ → ℕ → ℝ) : Decoder :=
  { embedding_dim := embedding_dim, num_layers := num_layers,
    embedding := ⟨target_vocab_size, embedding_dim, embW⟩,
    pos_encoding := get_positional_encodings maximum_position_encoding embedding_dim,
    dec_layers := (List.range num_layers).map (fun i =>
      DecoderLayer.build embedding_dim num_heads fully_connected_dim
        dropout_rate layernorm_eps (ps i)),
    dropout := ⟨dropout_rate, dropNoise⟩ }

/-- Source Decoder.__init__. -/
noncomputable def Decoder.init (num_layers embedding_dim num_heads
    fully_connected_dim target_vocab_size maximum_position_encoding : ℕ)
    (dropout_rate layernorm_eps : ℝ) (embW : ℕ → ℕ → ℝ)
    (ps : ℕ → DecoderLayerParams) (dropNoise : ℕ → ℕ → ℕ → ℝ) :
    Except String Decoder :=
  match initLayers (fun i =>
      DecoderLayer.init embedding_dim num_heads fully_connected_dim
        dropout_rate layernorm_eps (ps i)) num_layers with
  | .error e => .error e
  | .ok layers =>
    .ok { embedding_dim := embedding_dim, num_layers := num_layers,
          embedding := ⟨target_vocab_size, embedding_dim, embW⟩,
          pos_encoding := get_positional_encodings maximum_position_encoding
            embedding_dim,
          dec_layers := layers,
          dropout := ⟨dropout_rate, dropNoise⟩ }

/-- One iteration of the Decoder.call layer loop: run layer i on the
running activation and append its two attention-weight tensors to the
dictionary under the keys decoder_layer{i+1}_block1_self_att and
decoder_layer{i+1}_block2_decenc_att (insertion order preserved). -/
noncomputable def decoderStep (d : Decoder) (enc_output : Tensor3) (training : Bool)
    (look_ahead_mask padding_mask : Option Tensor4)
    (acc : Tensor3 × List (String × Tensor4)) (i : ℕ) :
    Tensor3 × List (String × Tensor4) :=
  let r := (d.dec_layers.getD i defaultDecoderLayer).call acc.1 enc_output
    training look_ahead_mask padding_mask
  (r.1, acc.2 ++
    [("decoder_layer" ++ toString (i + 1) ++ "_block1_self_att", r.2.1),
     ("decoder_layer" ++ toString (i + 1) ++ "_block2_decenc_att", r.2.2)])

/-- Source Decoder.call(x, enc_output, training, look_ahead_mask,
padding_mask): embedding, scaling, positional encoding, dropout, then
the layer loop accumulating the attention-weights dictionary. -/
noncomputable def Decoder.call (d : Decoder) (x : IdTensor2) (enc_output : Tensor3)
    (training : Bool) (look_ahead_mask padding_mask : Option Tensor4) :
    Tensor3 × List (String × Tensor4) :=
  let seq_len := x.n1
  let x1 := d.embedding.apply x
  let x2 := scale3 x1 (Real.sqrt (d.embedding_dim : ℕ))
  let x3 := bcastAdd3 x2 (slice3 d.pos_encoding seq_len)
  let x4 := d.dropout.apply training x3
  (List.range d.num_layers).foldl
    (decoderStep d enc_output training look_ahead_mask padding_mask) (x4, [])

/- ----------------------------------------------------------------
Transformer (notebook cell f29a2b74).
---------------------------------------------------------------- -/

/-- Dense(units, activation=softmax) applied to a rank-3 tensor. -/
noncomputable def denseSoftmax (L : DenseLayer) (x : Tensor3) : Tensor3 :=
  softmax3 (L.apply3 x)

/-- Transformer state after construction. -/
structure Transformer where
  encoder : Encoder
  decoder : Decoder
  final_layer : DenseLayer

/-- The record the Transformer constructor builds on success. -/
noncomputable def Transformer.build (num_layers embedding_dim num_heads
    fully_connected_dim input_vocab_size target_vocab_size
    max_positional_encoding_input max_positional_encoding_target : ℕ)
    (dropout_rate layernorm_eps : ℝ) (encEmbW decEmbW : ℕ → ℕ → ℝ)
    (encPs : ℕ → EncoderLayerParams) (decPs : ℕ → DecoderLayerParams)
    (encNoise decNoise : ℕ → ℕ → ℕ → ℝ) (finalW : DenseW) : Transformer :=
  { encoder := Encoder.build num_layers embedding_dim num_heads
      fully_connected_dim input_vocab_size max_positional_encoding_input
      dropout_rate layernorm_eps encEmbW encPs encNoise,
    decoder := Decoder.build num_layers embedding_dim num_heads
      fully_connected_dim target_vocab_size max_positional_encoding_target
      dropout_rate layernorm_eps decEmbW decPs decNoise,
    final_layer := ⟨target_vocab_size, finalW.w, finalW.b⟩ }

/-- Source Transformer.__init__: Encoder, Decoder, and the final
Dense(target_vocab_size, activation=softmax). -/
noncomputable def Transformer.init (num_layers embedding_dim num_heads
    fully_connected_dim input_vocab_size target_vocab_size
    max_positional_encoding_input max_positional_encoding_target : ℕ)
    (dropout_rate layernorm_eps : ℝ) (encEmbW decEmbW : ℕ → ℕ → ℝ)
    (encPs : ℕ → EncoderLayerParams) (decPs : ℕ → DecoderLayerParams)
    (encNoise decNoise : ℕ → ℕ → ℕ → ℝ) (finalW : DenseW) :
    Except String Transformer :=
  match Encoder.init num_layers embedding_dim num_heads
      fully_connected_dim input_vocab_size max_positional_encoding_input
      dropout_rate layernorm_eps encEmbW encPs encNoise with
  | .error e => .error e
  | .ok enc =>
    match Decoder.init num_layers embedding_dim num_heads
        fully_connected_dim target_vocab_size max_positional_encoding_target
        dropout_rate layernorm_eps decEmbW decPs decNoise with
    | .error e => .error e
    | .ok dec =>
      .ok { encoder := enc, decoder := dec,
            final_layer := ⟨target_vocab_size, finalW.w, finalW.b⟩ }

/-- Source Transformer.call(inp, tar, training, enc_padding_mask,
look_ahead_mask, dec_padding_mask): encoder, decoder conditioned on
the encoder output, final softmax projection. -/
noncomputable def Transformer.call (t : Transformer) (inp tar : IdTensor2)
    (training : Bool)
    (enc_padding_mask look_ahead_mask dec_padding_mask : Option Tensor4) :
    Tensor3 × List (String × Tensor4) :=
  let enc_output := t.encoder.call inp training enc_padding_mask
  let r := t.decoder.call tar enc_output training look_ahead_mask dec_padding_mask
  (denseSoftmax t.final_layer r.1, r.2)

/- ----------------------------------------------------------------
Claim C10: empty layer stacks never trigger the construction check.
---------------------------------------------------------------- -/

/-- C10: with num_layers = 0 the Encoder, Decoder, and Transformer
constructors succeed for every feature_dim/head_count pair, including
pairs where head_count does not divide feature_dim: the divisibility
assert lives only in the MultiHeadAttention constructor, which an empty
layer stack never instantiates. -/
theorem claim_C10 (embedding_dim num_heads fully_connected_dim
    input_vocab_size target_vocab_size mpi mpt : ℕ) (rate eps : ℝ)
    (encEmbW decEmbW : ℕ → ℕ → ℝ) (encPs : ℕ → EncoderLayerParams)
    (decPs : ℕ → DecoderLayerParams) (encNoise decNoise : ℕ → ℕ → ℕ → ℝ)
    (finalW : DenseW) :
    (Encoder.init 0 embedding_dim num_heads fully_connected_dim
        input_vocab_size mpi rate eps encEmbW encPs encNoise).isOk = true ∧
    (Decoder.init 0 embedding_dim num_heads fully_connected_dim
        target_vocab_size mpt rate eps decEmbW decPs decNoise).isOk = true ∧
    (Transformer.init 0 embedding_dim num_heads fully_connected_dim
        input_vocab_size target_vocab_size mpi mpt rate eps encEmbW decEmbW
        encPs decPs encNoise decNoise finalW).isOk = true :=
  ⟨rfl, rfl, rfl⟩

/- ----------------------------------------------------------------
Claim C9: decoder attention-weights dictionary keys and order.
---------------------------------------------------------------- -/

lemma decoder_fold_keys (d : Decoder) (enc : Tensor3) (training : Bool)
    (lam pm : Option Tensor4) :
    ∀ (l : List ℕ) (acc : Tensor3 × List (String × Tensor4)),
      (((l.foldl (decoderStep d enc training lam pm) acc).2).map Prod.fst) =
        acc.2.map Prod.fst ++ l.flatMap (fun i =>
          ["decoder_layer" ++ toString (i + 1) ++ "_block1_self_att",
           "decoder_layer" ++ toString (i + 1) ++ "_block2_decenc_att"]) := by
  intro l
  induction l with
  | nil => intro acc; simp
  | cons i l ih =>
    intro acc
    rw [List.foldl_cons, ih]
    simp [decoderStep]

lemma decoder_fold_len (d : Decoder) (enc : Tensor3) (training : Bool)
    (lam pm : Option Tensor4) :
    ∀ (l : List ℕ) (acc : Tensor3 × List (String × Tensor4)),
      ((l.foldl (decoderStep d enc training lam pm) acc).2).length =
        acc.2.length + 2 * l.length := by
  intro l
  induction l with
  | nil => intro acc; simp
  | cons i l ih =>
    intro acc
    rw [List.foldl_cons, ih]
    simp [decoderStep]
    omega

/-- C9: a decoder forward pass with num_layers >= 1 returns an
attention-weights collection of exactly 2 * num_layers entries whose
insertion order is layer 1 block 1 (self-attention), layer 1 block 2
(cross-attention), layer 2 block 1, and so on: block 1 of each layer is
inserted before block 2 of the same layer. -/
theorem claim_C9 (d : Decoder) (x : IdTensor2) (enc_output : Tensor3)
    (training : Bool) (look_ahead_mask padding_mask : Option Tensor4)
    (hn : 1 ≤ d.num_layers) :
    (((d.call x enc_output training look_ahead_mask padding_mask).2).map Prod.fst =
      (List.range d.num_layers).flatMap (fun i =>
        ["decoder_layer" ++ toString (i + 1) ++ "_block1_self_att",
         "decoder_layer" ++ toString (i + 1) ++ "_block2_decenc_att"])) ∧
    ((d.call x enc_output training look_ahead_mask padding_mask).2).length =
      2 * d.num_layers := by
  constructor
  · rw [show (d.call x enc_output training look_ahead_mask padding_mask).2 =
        ((List.range d.num_layers).foldl
          (decoderStep d enc_output training look_ahead_mask padding_mask)
          (((d.dropout.apply training (bcastAdd3
              (scale3 (d.embedding.apply x) (Real.sqrt (d.embedding_dim : ℕ)))
              (slice3 d.pos_encoding x.n1)))), [])).2 from rfl,
      decoder_fold_keys]
    simp
  · rw [show (d.call x enc_output training look_ahead_mask padding_mask).2 =
        ((List.range d.num_layers).foldl
          (decoderStep d enc_output training look_ahead_mask padding_mask)
          (((d.dropout.apply training (bcastAdd3
              (scale3 (d.embedding.apply x) (Real.sqrt (d.embedding_dim : ℕ)))
              (slice3 d.pos_encoding x.n1)))), [])).2 from rfl,
      decoder_fold_len]
    simp

/-- Zero weight supply for a whole multi-head attention layer. -/
def zeroMHAW : MHAWeights := ⟨zeroW, zeroW, zeroW, zeroW⟩

/-- Zero layer-normalization weight supply. -/
def zeroLNW : LNW := ⟨fun _ => 0, fun _ => 0⟩

/-- Zero weight supply for an encoder layer. -/
def zeroELP : EncoderLayerParams :=
  ⟨zeroMHAW, zeroW, zeroW, zeroLNW, zeroLNW, fun _ _ _ => 0, fun _ _ _ => 0⟩

/-- Zero weight supply for a decoder layer. -/
def zeroDLP : DecoderLayerParams :=
  ⟨zeroMHAW, zeroMHAW, zeroW, zeroW, zeroLNW, zeroLNW, zeroLNW,
    fun _ _ _ => 0, fun _ _ _ => 0, fun _ _ _ => 0⟩

/-- Concrete one-layer decoder used as the C9 witness instance. -/
noncomputable def decC9 : Decoder :=
  Decoder.build 1 1 1 1 1 1 0 0 (fun _ _ => 0) (fun _ => zeroDLP)
    (fun _ _ _ => 0)

/-- C9 witness: a one-layer decoder on a singleton input. -/
theorem claim_C9_witness :
    (((decC9.call ⟨1, 1, fun _ _ => 0⟩ ⟨1, 1, 1, fun _ _ _ => 0⟩ false
        none none).2).map Prod.fst =
      (List.range decC9.num_layers).flatMap (fun i =>
        ["decoder_layer" ++ toString (i + 1) ++ "_block1_self_att",
         "decoder_layer" ++ toString (i + 1) ++ "_block2_decenc_att"])) ∧
    ((decC9.call ⟨1, 1, fun _ _ => 0⟩ ⟨1, 1, 1, fun _ _ _ => 0⟩ false
        none none).2).length = 2 * decC9.num_layers :=
  claim_C9 decC9 ⟨1, 1, fun _ _ => 0⟩ ⟨1, 1, 1, fun _ _ _ => 0⟩ false none none
    (le_refl 1)

/- ----------------------------------------------------------------
Shape lemmas for claim C8.
---------------------------------------------------------------- -/

lemma reshape_dim_helper (a b d h t : ℕ) (ha : 0 < a) (hd : 0 < d)
    (hht : h * t = d) :
    a * (a * b * d / (a * h * t)) * h * t / (a * d) = b := by
  have had : 0 < a * d := Nat.mul_pos ha hd
  have h1 : a * h * t = a * d := by rw [mul_assoc, hht]
  have h2 : a * b * d = a * d * b := by ring
  rw [h1, h2, Nat.mul_div_cancel_left _ had]
  have h3 : a * b * h * t = a * d * b := by
    rw [mul_assoc (a * b) h t, hht]; ring
  rw [h3, Nat.mul_div_cancel_left _ had]

/-- The configuration facts about a constructed MultiHeadAttention that
the shape analysis uses: projection widths match d_model and the heads
exactly tile the model dimension. -/
def MultiHeadAttention.wf (p : MultiHeadAttention) : Prop :=
  p.wq.units = p.d_model ∧ p.dense.units = p.d_model ∧
    p.num_heads * p.depth = p.d_model

lemma mha_call_shape (p : MultiHeadAttention) (v k q : Tensor3)
    (mask : Option Tensor4) (hw : p.wf) (hq : 0 < q.n0) (hd : 0 < p.d_model) :
    (p.call v k q mask).1.n0 = q.n0 ∧ (p.call v k q mask).1.n1 = q.n1 ∧
      (p.call v k q mask).1.n2 = p.d_model := by
  obtain ⟨hwq, hwd, hht⟩ := hw
  have harith : q.n0 * (q.n0 * q.n1 * p.wq.units / (q.n0 * p.num_heads * p.depth)) *
      p.num_heads * p.depth / (q.n0 * p.d_model) = q.n1 := by
    rw [hwq]
    exact reshape_dim_helper q.n0 q.n1 p.d_model p.num_heads p.depth hq hd hht
  cases mask with
  | none =>
    refine ⟨?_, ?_, ?_⟩ <;>
      simp only [MultiHeadAttention.call, MultiHeadAttention.split_heads,
        scaled_dot_product_attention, DenseLayer.apply3, reshape3to4,
        reshape4to3, transpose4_0213, transpose4_23, matmul4, divScalar4,
        softmax4, bcastAdd4, scaleTensor4]
    · exact harith
    · exact hwd
  | some m =>
    refine ⟨?_, ?_, ?_⟩ <;>
      simp only [MultiHeadAttention.call, MultiHeadAttention.split_heads,
        scaled_dot_product_attention, DenseLayer.apply3, reshape3to4,
        reshape4to3, transpose4_0213, transpose4_23, matmul4, divScalar4,
        softmax4, bcastAdd4, scaleTensor4]
    · exact harith
    · exact hwd

/-- Shape of one encoder layer: dimension-preserving in batch and
sequence length, last axis reset to the outer feed-forward width. -/
lemma encoder_layer_shape (l : EncoderLayer) (x : Tensor3) (training : Bool)
    (mask : Option Tensor4) :
    (l.call x training mask).n0 = x.n0 ∧ (l.call x training mask).n1 = x.n1 ∧
      (l.call x training mask).n2 = l.ffn.outer.units :=
  ⟨rfl, rfl, rfl⟩

/-- The configuration facts about a constructed DecoderLayer that the
shape analysis uses. -/
def DecoderLayer.wf (l : DecoderLayer) (dm : ℕ) : Prop :=
  l.mha1.wf ∧ l.mha2.wf ∧ l.mha1.d_model = dm ∧ l.mha2.d_model = dm ∧
    l.ffn.outer.units = dm

set_option maxHeartbeats 2000000 in
lemma decoder_layer_shape (l : DecoderLayer) (dm : ℕ) (hw : l.wf dm)
    (hd : 0 < dm) (x enc : Tensor3) (training : Bool)
    (lam pm : Option Tensor4) (hx : 0 < x.n0) :
    ((l.call x enc training lam pm).1.n0 = x.n0 ∧
     (l.call x enc training lam pm).1.n1 = x.n1 ∧
     (l.call x enc training lam pm).1.n2 = dm) := by
  obtain ⟨hw1, hw2, hd1, hd2, hffn⟩ := hw
  have h1 := mha_call_shape l.mha1 x x x lam hw1 hx (by rw [hd1]; exact hd)
  have h2 := mha_call_shape l.mha2 enc enc
    (l.layernorm1.apply (add3 (l.dropout1.apply training (l.mha1.call x x x lam).1) x))
    pm hw2 hx (by rw [hd2]; exact hd)
  exact ⟨rfl, h2.2.1.trans h1.2.1, hffn⟩

lemma decoder_fold_shape (d : Decoder) (enc : Tensor3) (training : Bool)
    (lam pm : Option Tensor4) (dm : ℕ) (hd : 0 < dm) :
    ∀ (n : ℕ) (acc : Tensor3 × List (String × Tensor4)),
      (∀ i, i < n → (d.dec_layers.getD i defaultDecoderLayer).wf dm) →
      0 < acc.1.n0 →
      (((List.range n).foldl (decoderStep d enc training lam pm) acc).1.n0 =
          acc.1.n0 ∧
       ((List.range n).foldl (decoderStep d enc training lam pm) acc).1.n1 =
          acc.1.n1 ∧
       (0 < n →
        ((List.range n).foldl (decoderStep d enc training lam pm) acc).1.n2 =
          dm)) := by
  intro n
  induction n with
  | zero =>
    intro acc _ _
    exact ⟨rfl, rfl, fun h => absurd h (by omega)⟩
  | succ n ih =>
    intro acc hwf h0
    obtain ⟨p0, p1, _⟩ := ih acc (fun i hi => hwf i (Nat.lt_succ_of_lt hi)) h0
    have hl := decoder_layer_shape (d.dec_layers.getD n defaultDecoderLayer) dm
      (hwf n (Nat.lt_succ_self n)) hd
      ((List.range n).foldl (decoderStep d enc training lam pm) acc).1 enc
      training lam pm (by rw [p0]; exact h0)
    rw [List.range_succ, List.foldl_append, List.foldl_cons, List.foldl_nil]
    exact ⟨hl.1.trans p0, hl.2.1.trans p1, fun _ => hl.2.2⟩

lemma decoder_call_shape (d : Decoder) (x : IdTensor2) (enc : Tensor3)
    (training : Bool) (lam pm : Option Tensor4) (hb : 0 < x.n0)
    (hdm : 0 < d.embedding_dim) (hemb : d.embedding.output_dim = d.embedding_dim)
    (hwf : ∀ i, i < d.num_layers →
      (d.dec_layers.getD i defaultDecoderLayer).wf d.embedding_dim) :
    ((d.call x enc training lam pm).1.n0 = x.n0 ∧
     (d.call x enc training lam pm).1.n1 = x.n1 ∧
     (d.call x enc training lam pm).1.n2 = d.embedding_dim) := by
  have h := decoder_fold_shape d enc training lam pm d.embedding_dim hdm
    d.num_layers
    (d.dropout.apply training (bcastAdd3
      (scale3 (d.embedding.apply x) (Real.sqrt (d.embedding_dim : ℕ)))
      (slice3 d.pos_encoding x.n1)), [])
    hwf hb
  rcases Nat.eq_zero_or_pos d.num_layers with h0 | h0
  · refine ⟨h.1, h.2.1, ?_⟩
    have : (d.call x enc training lam pm).1.n2 = d.embedding.output_dim := by
      show (((List.range d.num_layers).foldl
        (decoderStep d enc training lam pm)
        (d.dropout.apply training (bcastAdd3
          (scale3 (d.embedding.apply x) (Real.sqrt (d.embedding_dim : ℕ)))
          (slice3 d.pos_encoding x.n1)), [])).1.n2 = d.embedding.output_dim)
      rw [h0]
      rfl
    rw [this, hemb]
  · exact ⟨h.1, h.2.1, h.2.2 h0⟩

lemma softmax3_sum (y : Tensor3) (hn : 0 < y.n2) (b l : ℕ) :
    ∑ j ∈ Finset.range y.n2, (softmax3 y).ent b l j = 1 := by
  have hpos : 0 < ∑ j ∈ Finset.range y.n2, Real.exp (y.ent b l j) :=
    Finset.sum_pos (fun j _ => Real.exp_pos _)
      (Finset.nonempty_range_iff.mpr (Nat.pos_iff_ne_zero.mp hn))
  simp only [softmax3]
  rw [← Finset.sum_div]
  exact div_self (ne_of_gt hpos)

/- ----------------------------------------------------------------
Construction-extraction lemmas for claim C8.
---------------------------------------------------------------- -/

lemma mha_build_wf (d h : ℕ) (Wq Wk Wv Wo : DenseW) (hdvd : h ∣ d) :
    (MultiHeadAttention.build d h Wq Wk Wv Wo).wf :=
  ⟨rfl, rfl, Nat.mul_div_cancel' hdvd⟩

lemma decoder_layer_build_wf (dm h fc : ℕ) (rate eps : ℝ)
    (p : DecoderLayerParams) (hdvd : h ∣ dm) :
    (DecoderLayer.build dm h fc rate eps p).wf dm :=
  ⟨mha_build_wf dm h _ _ _ _ hdvd, mha_build_wf dm h _ _ _ _ hdvd, rfl, rfl, rfl⟩

lemma mha_init_ok {d h : ℕ} {Wq Wk Wv Wo : DenseW} {p : MultiHeadAttention}
    (hp : MultiHeadAttention.init d h Wq Wk Wv Wo = .ok p) :
    h ≠ 0 ∧ d % h = 0 ∧ p = MultiHeadAttention.build d h Wq Wk Wv Wo := by
  by_cases h0 : h = 0
  · simp [MultiHeadAttention.init, h0] at hp
  · by_cases hm : d % h = 0
    · simp [MultiHeadAttention.init, h0, hm] at hp
      exact ⟨h0, hm, hp.symm⟩
    · simp [MultiHeadAttention.init, h0, hm] at hp

lemma decoder_layer_init_ok {dm h fc : ℕ} {rate eps : ℝ}
    {p : DecoderLayerParams} {l : DecoderLayer}
    (hl : DecoderLayer.init dm h fc rate eps p = .ok l) :
    h ≠ 0 ∧ dm % h = 0 ∧ l = DecoderLayer.build dm h fc rate eps p := by
  unfold DecoderLayer.init at hl
  cases h1 : MultiHeadAttention.init dm h p.att1.Wq p.att1.Wk p.att1.Wv p.att1.Wo with
  | error e => rw [h1] at hl; simp at hl
  | ok m1 =>
    rw [h1] at hl
    cases h2 : MultiHeadAttention.init dm h p.att2.Wq p.att2.Wk p.att2.Wv p.att2.Wo with
    | error e => rw [h2] at hl; simp at hl
    | ok m2 =>
      rw [h2] at hl
      simp at hl
      obtain ⟨hz, hmod, _⟩ := mha_init_ok h1
      exact ⟨hz, hmod, hl.symm⟩

lemma initLayers_ok {α : Type} {f : ℕ → Except String α} :
    ∀ {n : ℕ} {L : List α}, initLayers f n = .ok L →
      L.length = n ∧ ∀ (i : ℕ) (d0 : α), i < n → f i = .ok (L.getD i d0) := by
  intro n
  induction n with
  | zero =>
    intro L h
    simp only [initLayers] at h
    cases h
    exact ⟨rfl, fun i d0 hi => absurd hi (by omega)⟩
  | succ n ih =>
    intro L h
    unfold initLayers at h
    cases h1 : initLayers f n with
    | error e => rw [h1] at h; simp at h
    | ok xs =>
      rw [h1] at h
      cases h2 : f n with
      | error e => rw [h2] at h; simp at h
      | ok x =>
        rw [h2] at h
        simp at h
        obtain ⟨hlen, hall⟩ := ih h1
        subst h
        refine ⟨by simp [hlen], fun i d0 hi => ?_⟩
        rcases Nat.lt_or_ge i n with hlt | hge
        · rw [List.getD_append xs [x] d0 i (by rw [hlen]; exact hlt)]
          exact hall i d0 hlt
        · have hieq : i = n := by omega
          have hxl : xs.length = i := by omega
          have h3 : (xs ++ [x]).getD i d0 = x := by
            rw [← hxl]
            simp [List.getD, List.getElem?_concat_length]
          rw [h3, hieq]
          exact h2

lemma decoder_init_ok {n dm hh fc tv mp : ℕ} {rate eps : ℝ}
    {embW : ℕ → ℕ → ℝ} {ps : ℕ → DecoderLayerParams}
    {ns : ℕ → ℕ → ℕ → ℝ} {dec : Decoder}
    (h : Decoder.init n dm hh fc tv mp rate eps embW ps ns = .ok dec) :
    dec.embedding_dim = dm ∧ dec.num_layers = n ∧
      dec.embedding.output_dim = dm ∧
      ∀ i, i < n → DecoderLayer.init dm hh fc rate eps (ps i) =
        .ok (dec.dec_layers.getD i defaultDecoderLayer) := by
  unfold Decoder.init at h
  cases h1 : initLayers (fun i =>
      DecoderLayer.init dm hh fc rate eps (ps i)) n with
  | error e => rw [h1] at h; simp at h
  | ok L =>
    rw [h1] at h
    simp at h
    obtain ⟨_, hall⟩ := initLayers_ok h1
    subst h
    exact ⟨rfl, rfl, rfl, fun i hi => hall i defaultDecoderLayer hi⟩

lemma transformer_init_ok {n dm hh fc iv tv mpi mpt : ℕ} {rate eps : ℝ}
    {encEmbW decEmbW : ℕ → ℕ → ℝ} {encPs : ℕ → EncoderLayerParams}
    {decPs : ℕ → DecoderLayerParams} {encNoise decNoise : ℕ → ℕ → ℕ → ℝ}
    {finalW : DenseW} {t : Transformer}
    (h : Transformer.init n dm hh fc iv tv mpi mpt rate eps encEmbW decEmbW
      encPs decPs encNoise decNoise finalW = .ok t) :
    Decoder.init n dm hh fc tv mpt rate eps decEmbW decPs decNoise =
        .ok t.decoder ∧
      t.final_layer = ⟨tv, finalW.w, finalW.b⟩ := by
  unfold Transformer.init at h
  cases h1 : Encoder.init n dm hh fc iv mpi rate eps encEmbW encPs encNoise with
  | error e => rw [h1] at h; simp at h
  | ok enc =>
    rw [h1] at h
    cases h2 : Decoder.init n dm hh fc tv mpt rate eps decEmbW decPs decNoise with
    | error e => rw [h2] at h; simp at h
    | ok dec =>
      rw [h2] at h
      simp at h
      subst h
      exact ⟨rfl, rfl⟩

/- ----------------------------------------------------------------
Claim C8.
---------------------------------------------------------------- -/

/-- C8: a Transformer built by the constructor, run on a (batch,
target_length) target with nonempty batch, positive feature dimension
and positive target vocabulary, returns as first output a tensor of
shape (batch, target_length, target_vocab_size) whose entries at each
target position sum to 1 (the final projection carries a softmax
activation). -/
theorem claim_C8 (num_layers embedding_dim num_heads fully_connected_dim
    input_vocab_size target_vocab_size mpi mpt : ℕ) (rate eps : ℝ)
    (encEmbW decEmbW : ℕ → ℕ → ℝ) (encPs : ℕ → EncoderLayerParams)
    (decPs : ℕ → DecoderLayerParams) (encNoise decNoise : ℕ → ℕ → ℕ → ℝ)
    (finalW : DenseW) (t : Transformer)
    (hinit : Transformer.init num_layers embedding_dim num_heads
      fully_connected_dim input_vocab_size target_vocab_size mpi mpt rate eps
      encEmbW decEmbW encPs decPs encNoise decNoise finalW = .ok t)
    (inp tar : IdTensor2) (training : Bool)
    (enc_padding_mask look_ahead_mask dec_padding_mask : Option Tensor4)
    (hd : 0 < embedding_dim) (hb : 0 < tar.n0) (hv : 0 < target_vocab_size) :
    ((t.call inp tar training enc_padding_mask look_ahead_mask
        dec_padding_mask).1.shape = [tar.n0, tar.n1, target_vocab_size]) ∧
    (∀ b l, b < tar.n0 → l < tar.n1 →
      ∑ j ∈ Finset.range target_vocab_size,
        (t.call inp tar training enc_padding_mask look_ahead_mask
          dec_padding_mask).1.ent b l j = 1) := by
  obtain ⟨hdec, hfin⟩ := transformer_init_ok hinit
  obtain ⟨hdm, hnl, hemb, hlayers⟩ := decoder_init_ok hdec
  have hwf : ∀ i, i < t.decoder.num_layers →
      (t.decoder.dec_layers.getD i defaultDecoderLayer).wf
        t.decoder.embedding_dim := by
    intro i hi
    rw [hnl] at hi
    obtain ⟨hz, hmod, hbuild⟩ := decoder_layer_init_ok (hlayers i hi)
    rw [hbuild, hdm]
    exact decoder_layer_build_wf embedding_dim num_heads fully_connected_dim
      rate eps (decPs i) (Nat.dvd_iff_mod_eq_zero.mpr hmod)
  have hshape := decoder_call_shape t.decoder tar
    (t.encoder.call inp training enc_padding_mask) training look_ahead_mask
    dec_padding_mask hb (by rw [hdm]; exact hd) (hemb.trans hdm.symm) hwf
  have e0 : (t.call inp tar training enc_padding_mask look_ahead_mask
      dec_padding_mask).1.n0 = tar.n0 := hshape.1
  have e1 : (t.call inp tar training enc_padding_mask look_ahead_mask
      dec_padding_mask).1.n1 = tar.n1 := hshape.2.1
  have e2 : (t.call inp tar training enc_padding_mask look_ahead_mask
      dec_padding_mask).1.n2 = target_vocab_size := by
    have : (t.call inp tar training enc_padding_mask look_ahead_mask
        dec_padding_mask).1.n2 = t.final_layer.units := rfl
    rw [this, hfin]
  constructor
  · simp only [Tensor3.shape]
    rw [e0, e1, e2]
  · intro b l _ _
    have hy : (t.final_layer.apply3
        (t.decoder.call tar (t.encoder.call inp training enc_padding_mask)
          training look_ahead_mask dec_padding_mask).1).n2 =
        target_vocab_size := by
      have : (t.final_layer.apply3
          (t.decoder.call tar (t.encoder.call inp training enc_padding_mask)
            training look_ahead_mask dec_padding_mask).1).n2 =
          t.final_layer.units := rfl
      rw [this, hfin]
    have hsum := softmax3_sum (t.final_layer.apply3
      (t.decoder.call tar (t.encoder.call inp training enc_padding_mask)
        training look_ahead_mask dec_padding_mask).1)
      (by rw [hy]; exact hv) b l
    rw [hy] at hsum
    exact hsum

/-- Concrete Transformer (1 layer, feature_dim 8, 2 heads, vocab sizes
100/120, zero weights) used as the C8 witness instance. -/
noncomputable def tC8 : Transformer :=
  Transformer.build 1 8 2 1 100 120 5 5 0 0 (fun _ _ => 0) (fun _ _ => 0)
    (fun _ => zeroELP) (fun _ => zeroDLP) (fun _ _ _ => 0) (fun _ _ _ => 0)
    zeroW

/-- Concrete batch-1 length-5 token-id input for the C8 witness. -/
def idsC8 : IdTensor2 := ⟨1, 5, fun _ _ => 0⟩

/-- C8 witness: the scenario-4 configuration (vocab sizes 100/120,
feature_dim 8, 2 heads, 1 layer, batch 1, length 5) produces output
shape (1, 5, 120). -/
theorem claim_C8_witness :
    (tC8.call idsC8 idsC8 false none none none).1.shape = [1, 5, 120] :=
  (claim_C8 1 8 2 1 100 120 5 5 0 0 (fun _ _ => 0) (fun _ _ => 0)
    (fun _ => zeroELP) (fun _ => zeroDLP) (fun _ _ _ => 0) (fun _ _ _ => 0)
    zeroW tC8 rfl idsC8 idsC8 false none none none (by decide) (by decide)
    (by decide)).1

end TransformerModel
